import Mathlib

/-!
Verification model of the syringe-pump serial driver in `myser_v11.py`
(class `Pump`): wire framing, reply decoding, the error taxonomy, the
initialization sequence, and the dispensed-volume carryover bookkeeping.

Pure protocol functions are translated directly; the stateful session is
modelled by explicit state passing over a `Pump` record that also carries
the transport (the scripted list of reply lines still to be read, and the
trace of wire commands written so far).  Python `float` values are
modelled as rationals.
-/

namespace Myser

/-- Char constant from the source: end of packet transmission. -/
def ETX : Char := '\x03'

/-- Char constant from the source: start of packet transmission. -/
def STX : Char := '\x02'

/-- The seven single-character status codes of the STATUS table
(`I,W,S,P,T,U,X`). -/
def statusChars : List Char := ['I', 'W', 'S', 'P', 'T', 'U', 'X']

/-- Splits a character list at its LAST `ETX`: returns the characters
before it.  This realises the greedy `(?P<data>.*)` followed by `\x03`
in the `_response` pattern (the greedy group extends to the last `ETX`
that the pattern can still close on). -/
def lastETXsplit : List Char → Option (List Char)
  | [] => none
  | c :: cs =>
    match lastETXsplit cs with
    | some t => some (c :: t)
    | none => if c = ETX then some [] else none

/-- The data group of `_response`: Python's `.` does not match a newline,
so the greedy data group and its closing `ETX` must lie inside the
maximal newline-free prefix of the remaining input. -/
def dataETX (l : List Char) : Option (List Char) :=
  lastETXsplit (l.takeWhile (fun c => c != '\n'))

/-- `Pump._response` = `re.compile('\x02(?P<address>\d+)([IWSPTUX]|A\?)(.*)\x03')`
applied with `re.match` semantics (anchored at the start, trailing input
ignored).  Returns the three captured groups (address digits, status
token, data).  The pattern is deterministic: a digit can never start the
status token, so the greedy `\d+` never backtracks, and the two status
alternatives are disjoint. -/
def matchResponse (l : List Char) : Option (List Char × List Char × List Char) :=
  match l with
  | [] => none
  | c :: rest =>
    if c = STX then
      let ds := rest.takeWhile Char.isDigit
      let r1 := rest.dropWhile Char.isDigit
      if ds.isEmpty then none
      else
        match r1 with
        | [] => none
        | s :: r2 =>
          if statusChars.contains s then
            (dataETX r2).map (fun d => (ds, [s], d))
          else if s = 'A' then
            match r2 with
            | [] => none
            | q :: r3 =>
              if q = '?' then (dataETX r3).map (fun d => (ds, ['A', '?'], d))
              else none
          else none
    else none

/-- Outcome of decoding one reply line in `Pump._write_read`
(lines 191-202): either the matched groups are returned as a plain
response, or the line is classified as a communication or hardware
error. -/
inductive DecodeResult where
  | resp (address status data : String)
  | commErr (code : String)
  | hwErr (code : String)
  deriving DecidableEq, Repr

/-- The decoding half of `Pump._write_read`: match the reply against
`_response`; no match (including the empty read) raises
`PumpCommError('NR')`; status `A?` raises `PumpHardwareError(data)`;
data starting with `?` raises `PumpCommError(data[1:])`; otherwise the
groups are returned.  (The source's `if res == '':` check compares the
bytes read against a str and so never fires in Python 3; an empty read
reaches the regex, fails to match, and yields the same `NR` error.) -/
def decode (line : String) : DecodeResult :=
  match matchResponse line.data with
  | none => .commErr "NR"
  | some (a, st, d) =>
    if st = ['A', '?'] then .hwErr (String.mk d)
    else
      match d with
      | '?' :: d1 => .commErr (String.mk d1)
      | _ => .resp (String.mk a) (String.mk st) (String.mk d)

/-- Characters matched by the `[\.0-9]` class of `Pump._dispensed`. -/
def dotDigit (c : Char) : Bool := c = '.' || c.isDigit

/-- `Pump._dispensed` = `re.compile('I([\.0-9]+)W([\.0-9]+)([MLU]{2})')`
with `re.match` semantics.  Returns (infuse digits, withdraw digits,
units).  Again deterministic: neither `W` nor a unit letter is in the
`[\.0-9]` class, so the greedy groups never backtrack. -/
def dispensedMatch (l : List Char) : Option (List Char × List Char × List Char) :=
  match l with
  | 'I' :: r1 =>
    let a := r1.takeWhile dotDigit
    let r2 := r1.dropWhile dotDigit
    if a.isEmpty then none
    else
      match r2 with
      | 'W' :: r3 =>
        let b := r3.takeWhile dotDigit
        let r4 := r3.dropWhile dotDigit
        if b.isEmpty then none
        else
          match r4 with
          | u1 :: u2 :: _ =>
            if (u1 = 'M' || u1 = 'L' || u1 = 'U') && (u2 = 'M' || u2 = 'L' || u2 = 'U')
            then some (a, b, [u1, u2])
            else none
          | _ => none
      | _ => none
  | _ => none

/-- Numeric value of a list of decimal digit characters. -/
def digitsToNat (l : List Char) : Nat :=
  l.foldl (fun n c => 10 * n + (c.toNat - 48)) 0

/-- Python `float()` applied to a string drawn from the `[\.0-9]` class
(as captured by `_dispensed`): it succeeds exactly when the string has
at most one dot and at least one digit; the value is exact here because
we model floats as rationals. -/
def pyFloatQ (l : List Char) : Option ℚ :=
  if (l.all dotDigit) && (l.count '.' ≤ 1) && (l.any Char.isDigit) then
    let ip := l.takeWhile (fun c => c != '.')
    let fp := (l.dropWhile (fun c => c != '.')).drop 1
    some ((digitsToNat ip : ℚ) + (digitsToNat fp : ℚ) / (10 : ℚ) ^ fp.length)
  else none

/-- The exceptions a session operation can raise: `PumpCommError` and
`PumpHardwareError` with their code strings, plus the Python runtime
errors that the driver code can produce (attribute access on an object
that lacks the attribute, `float()` on a malformed numeral, and lookup
of an undefined global name). -/
inductive PumpErr where
  | comm (code : String)
  | hardware (code : String)
  | attrError (name : String)
  | valueError
  | nameError (name : String)
  deriving DecidableEq, Repr

/-- The dict returned by `_write_read` (`match.groupdict()`): the three
captured groups of `_response`. -/
structure RespGroups where
  address : String
  status : String
  data : String
  deriving DecidableEq, Repr

/-- One pump session: the configuration fields stored by `Pump.__init__`
(the numeric ones kept as their `str()` renderings, which is all the
driver ever uses them for), the two carryover fields — `none` while the
Python attribute is still unassigned — and the borrowed transport:
`replies` is the script of lines the device will answer with, `sent` the
trace of wire commands written so far. -/
structure Pump where
  address : Nat
  diameter : String
  rate : String
  rateUnits : String
  volume : String
  volumeUnit : String
  lastInfused : Option ℚ
  lastWithdrawn : Option ℚ
  replies : List String
  sent : List String
  deriving DecidableEq, Repr

/-- The wire form of one command, from `_write_read` line 189:
`str(self._address) + ' ' + cmd + '\r'`. -/
def wire (address : Nat) (cmd : String) : String :=
  Nat.repr address ++ " " ++ cmd ++ "\r"

/-- Transport effect of one `_write_read`: the wire command is written
and one reply line is consumed (an exhausted script reads as the empty
line, i.e. a timeout). -/
def afterCmd (cmd : String) (p : Pump) : Pump :=
  { p with replies := p.replies.tail, sent := p.sent ++ [wire p.address cmd] }

/-- Lifts a decoded reply to the result of `_write_read`: errors become
raised exceptions, a plain response becomes the returned groupdict. -/
def toResult : DecodeResult → Except PumpErr RespGroups
  | .resp a st d => .ok ⟨a, st, d⟩
  | .commErr c => .error (.comm c)
  | .hwErr c => .error (.hardware c)

/-- `Pump._write_read` (lines 188-202): frame the command, write it, read
one line and decode it. -/
def writeRead (cmd : String) (p : Pump) : Except PumpErr RespGroups × Pump :=
  (toResult (decode (p.replies.headD "")), afterCmd cmd p)

/-- Sequencing of two statements inside a `try` block: if the first
`_write_read` raises, the raised error propagates (with the state as the
failed write left it); otherwise its result is discarded and execution
continues. -/
def andThen {α : Type} (step : Except PumpErr RespGroups × Pump)
    (k : Pump → Except PumpErr α × Pump) : Except PumpErr α × Pump :=
  match step with
  | (.error e, p) => (.error e, p)
  | (.ok _, p) => k p

/-- The argument `_getDispensed` is called with: the group name `'infuse'`
or `'withdraw'`. -/
inductive Direction where
  | infuse
  | withdraw
  deriving DecidableEq, Repr

/-- `Pump._getDispensed` (lines 254-262): query `DIS`, match the payload
against `_dispensed` and convert the requested group with `float()`.
When the payload does not match, `match.group(...)` is attribute access
on `None` and raises `AttributeError`; a group with two dots makes
`float()` raise `ValueError`. -/
def getDispensed (direction : Direction) (p : Pump) : Except PumpErr ℚ × Pump :=
  match writeRead "DIS" p with
  | (.error e, p1) => (.error e, p1)
  | (.ok g, p1) =>
    match dispensedMatch g.data.data with
    | none => (.error (.attrError "group"), p1)
    | some (si, sw, _) =>
      match pyFloatQ (match direction with | .infuse => si | .withdraw => sw) with
      | none => (.error .valueError, p1)
      | some q => (.ok q, p1)

/-- `Pump.getInfused` (lines 269-271):
`self._getDispensed('infuse') + self._lastInfused`.  The device query
runs first; then the carryover attribute is read, which raises
`AttributeError` if it was never assigned. -/
def getInfused (p : Pump) : Except PumpErr ℚ × Pump :=
  match getDispensed .infuse p with
  | (.error e, p1) => (.error e, p1)
  | (.ok v, p1) =>
    match p1.lastInfused with
    | none => (.error (.attrError "_lastInfused"), p1)
    | some last => (.ok (v + last), p1)

/-- `Pump.getWithdrawn` (lines 272-274):
`self._getDispensed('withdraw') + self._lastWithdrawn`. -/
def getWithdrawn (p : Pump) : Except PumpErr ℚ × Pump :=
  match getDispensed .withdraw p with
  | (.error e, p1) => (.error e, p1)
  | (.ok v, p1) =>
    match p1.lastWithdrawn with
    | none => (.error (.attrError "_lastWithdrawn"), p1)
    | some last => (.ok (v + last), p1)

/-- `Pump.resetDispensed` (lines 263-268): assign both carryover fields
to 0, then clear the device's infuse and withdraw counters. -/
def resetDispensed (p : Pump) : Except PumpErr Unit × Pump :=
  andThen (writeRead "CLD INF"
      { p with lastInfused := some 0, lastWithdrawn := some 0 }) fun p1 =>
  andThen (writeRead "CLD WDR" p1) fun p2 =>
  (.ok (), p2)

/-- `Pump.setDiameter` (lines 275-279): `self._lastInfused +=
self._getDispensed('infuse')` then the same for withdrawn, then send the
`DIA` command.  Python's augmented assignment loads the attribute before
evaluating the right-hand side, so an unassigned carryover raises
`AttributeError` before the `DIS` query goes out. -/
def setDiameter (diameter : String) (p : Pump) : Except PumpErr Unit × Pump :=
  match p.lastInfused with
  | none => (.error (.attrError "_lastInfused"), p)
  | some li =>
    match getDispensed .infuse p with
    | (.error e, p1) => (.error e, p1)
    | (.ok vi, p1) =>
      let p2 := { p1 with lastInfused := some (li + vi) }
      match p2.lastWithdrawn with
      | none => (.error (.attrError "_lastWithdrawn"), p2)
      | some lw =>
        match getDispensed .withdraw p2 with
        | (.error e, p3) => (.error e, p3)
        | (.ok vw, p3) =>
          let p4 := { p3 with lastWithdrawn := some (lw + vw) }
          andThen (writeRead ("DIA " ++ diameter) p4) fun p5 => (.ok (), p5)

/-- `Pump.getVolume` (lines 250-253): its first statement is
`if SIM: return`, but the global name `SIM` is defined nowhere in the
module, so evaluating the condition raises `NameError` before anything
is sent; the `self._write_read('VOL')['data']` line below it is
unreachable. -/
def getVolume (p : Pump) : Except PumpErr String × Pump :=
  (.error (.nameError "SIM"), p)

/-- The constructor configuration, after the default-filling of
`Pump.__init__` lines 129-155 (defaults: address 0, diameter 14.3,
rate 10 UM, volume 100 UL). -/
structure PumpConfig where
  address : Nat := 0
  diameter : String := "14.3"
  rate : String := "10"
  rateUnits : String := "UM"
  volume : String := "100"
  volumeUnit : String := "UL"
  deriving DecidableEq, Repr

/-- The session state at the top of the constructor's `try` block: fields
stored, no carryover attributes assigned yet, nothing sent. -/
def Pump.fromConfig (c : PumpConfig) (replies : List String) : Pump :=
  { address := c.address, diameter := c.diameter, rate := c.rate,
    rateUnits := c.rateUnits, volume := c.volume, volumeUnit := c.volumeUnit,
    lastInfused := none, lastWithdrawn := none,
    replies := replies, sent := [] }

/-- The body of the constructor's `try` block (lines 156-166): the five
setup commands `AL 0`, `DIA …`, `VOL …`, `VOL unit`, `RAT … unit`, then
the carryover fields are assigned 0 and `resetDispensed` clears the
device counters. -/
def initBody (p : Pump) : Except PumpErr Unit × Pump :=
  andThen (writeRead "AL 0" p) fun p1 =>
  andThen (writeRead ("DIA " ++ p1.diameter) p1) fun p2 =>
  andThen (writeRead ("VOL " ++ p2.volume) p2) fun p3 =>
  andThen (writeRead ("VOL " ++ p3.volumeUnit) p3) fun p4 =>
  andThen (writeRead ("RAT " ++ p4.rate ++ " " ++ p4.rateUnits) p4) fun p5 =>
  resetDispensed { p5 with lastInfused := some 0, lastWithdrawn := some 0 }

/-- `Pump.__init__` (lines 129-186): run the `try` block; a
`PumpHardwareError` whose code is `'R'` is swallowed (construction
completes with the object in whatever state the block reached), any
other hardware code is re-raised, and every other error propagates. -/
def Pump.init (c : PumpConfig) (replies : List String) : Except PumpErr Pump :=
  match initBody (Pump.fromConfig c replies) with
  | (.ok _, p) => .ok p
  | (.error (.hardware code), p) =>
    if code = "R" then .ok p else .error (.hardware code)
  | (.error e, _) => .error e

/-- The wire forms of the five setup commands of `__init__`, in source
order. -/
def setupCmds (c : PumpConfig) : List String :=
  [wire c.address "AL 0",
   wire c.address ("DIA " ++ c.diameter),
   wire c.address ("VOL " ++ c.volume),
   wire c.address ("VOL " ++ c.volumeUnit),
   wire c.address ("RAT " ++ c.rate ++ " " ++ c.rateUnits)]

/-- All seven wire commands a fully successful construction sends: the
five setup commands followed by the two counter clears of
`resetDispensed`. -/
def initWires (c : PumpConfig) : List String :=
  setupCmds c ++ [wire c.address "CLD INF", wire c.address "CLD WDR"]

/-- True when a line decodes to a plain response (no exception raised by
`_write_read`). -/
def isPlainResp (line : String) : Bool :=
  match decode line with
  | .resp _ _ _ => true
  | _ => false

/-- The live dispensed pair a reply line reports: the line decodes to a
plain response whose payload matches `_dispensed`, and both captured
numerals convert with `float()`. -/
def disValues (line : String) : Option (ℚ × ℚ) :=
  match decode line with
  | .resp _ _ dd =>
    match dispensedMatch dd.data with
    | some (si, sw, _) =>
      match pyFloatQ si, pyFloatQ sw with
      | some vi, some vw => some (vi, vw)
      | _, _ => none
    | none => none
  | _ => none

/-- The inbound framing of a device reply, from §6 of the protocol:
`STX`, the address digits, the status token, the payload, `ETX`. -/
def frameReply (address : Nat) (status : String) (data : String) : String :=
  String.mk (STX :: (Nat.repr address).data ++ status.data ++ data.data ++ [ETX])

/-! Helper lemmas about lists, decimal digit strings, and the codec. -/

lemma takeWhile_append_of_all {p : Char → Bool} :
    ∀ {xs : List Char} (ys : List Char), xs.all p = true →
      (xs ++ ys).takeWhile p = xs ++ ys.takeWhile p := by
  intro xs
  induction xs with
  | nil => intro ys _; rfl
  | cons c t ih =>
    intro ys h
    simp only [List.all_cons, Bool.and_eq_true] at h
    simp [List.takeWhile_cons, h.1, ih ys h.2]

lemma dropWhile_append_of_all {p : Char → Bool} :
    ∀ {xs : List Char} (ys : List Char), xs.all p = true →
      (xs ++ ys).dropWhile p = ys.dropWhile p := by
  intro xs
  induction xs with
  | nil => intro ys _; rfl
  | cons c t ih =>
    intro ys h
    simp only [List.all_cons, Bool.and_eq_true] at h
    simp [List.dropWhile_cons, h.1, ih ys h.2]

lemma takeWhile_eq_self_of_all {p : Char → Bool} :
    ∀ {l : List Char}, l.all p = true → l.takeWhile p = l := by
  intro l
  induction l with
  | nil => intro _; rfl
  | cons c t ih =>
    intro h
    simp only [List.all_cons, Bool.and_eq_true] at h
    simp [List.takeWhile_cons, h.1, ih h.2]

/-- The appended `ETX` is the last element, hence the last `ETX`, of
`d ++ [ETX]`, whatever `d` contains. -/
lemma lastETXsplit_append (d : List Char) : lastETXsplit (d ++ [ETX]) = some d := by
  induction d with
  | nil => rfl
  | cons c t ih => simp [lastETXsplit, ih]

lemma dataETX_append (d : List Char) (hnl : '\n' ∉ d) :
    dataETX (d ++ [ETX]) = some d := by
  unfold dataETX
  rw [takeWhile_eq_self_of_all, lastETXsplit_append]
  simp only [List.all_append, Bool.and_eq_true, List.all_eq_true, bne_iff_ne]
  refine ⟨fun c hc => ?_, by decide⟩
  intro hceq
  exact hnl (hceq ▸ hc)

lemma digitChar_isDigit {n : Nat} (h : n < 10) : (Nat.digitChar n).isDigit = true := by
  interval_cases n <;> decide

lemma toDigitsCore_all_digits :
    ∀ (f n : Nat) (ds : List Char), ds.all Char.isDigit = true →
      (Nat.toDigitsCore 10 f n ds).all Char.isDigit = true := by
  intro f
  induction f with
  | zero => intro n ds h; simpa [Nat.toDigitsCore] using h
  | succ f ih =>
    intro n ds h
    have hd : (Nat.digitChar (n % 10)).isDigit = true :=
      digitChar_isDigit (Nat.mod_lt _ (by norm_num))
    by_cases h0 : n / 10 = 0
    · simp [Nat.toDigitsCore, h0, List.all_cons, hd, h]
    · simp only [Nat.toDigitsCore, h0, if_false]
      exact ih (n / 10) _ (by simp [List.all_cons, hd, h])

lemma toDigitsCore_length_le :
    ∀ (f n : Nat) (ds : List Char), ds.length ≤ (Nat.toDigitsCore 10 f n ds).length := by
  intro f
  induction f with
  | zero => intro n ds; simp [Nat.toDigitsCore]
  | succ f ih =>
    intro n ds
    by_cases h0 : n / 10 = 0
    · simp [Nat.toDigitsCore, h0]
    · simp only [Nat.toDigitsCore, h0, if_false]
      calc ds.length ≤ (Nat.digitChar (n % 10) :: ds).length := by simp
        _ ≤ _ := ih (n / 10) _

lemma repr_all_digits (n : Nat) : (Nat.repr n).data.all Char.isDigit = true := by
  show (Nat.toDigits 10 n).asString.data.all Char.isDigit = true
  exact toDigitsCore_all_digits (n + 1) n [] rfl

lemma repr_ne_nil (n : Nat) : (Nat.repr n).data ≠ [] := by
  show (Nat.toDigits 10 n).asString.data ≠ []
  have h : 1 ≤ (Nat.toDigits 10 n).length := by
    unfold Nat.toDigits
    by_cases h0 : n / 10 = 0
    · simp [Nat.toDigitsCore, h0]
    · simp only [Nat.toDigitsCore, h0, if_false]
      calc 1 = [Nat.digitChar (n % 10)].length := rfl
        _ ≤ _ := toDigitsCore_length_le n (n / 10) _
  intro hnil
  rw [show (Nat.toDigits 10 n).asString.data = Nat.toDigits 10 n from rfl] at hnil
  simp [hnil] at h

lemma statusChar_not_digit {c : Char} (h : statusChars.contains c = true) :
    c.isDigit = false := by
  have h2 : c ∈ statusChars := by simpa using h
  simp only [statusChars, List.mem_cons, List.not_mem_nil, or_false] at h2
  rcases h2 with rfl | rfl | rfl | rfl | rfl | rfl | rfl <;> decide

/-- Matching `_response` against a framed device reply recovers the three
groups: the address digits, the status token (a single status character
or the fault marker), and the payload.  The payload must be free of
newlines, which the `.*` group cannot cross. -/
lemma matchResponse_frame (a : Nat) (st d : List Char)
    (hst : (∃ c, st = [c] ∧ statusChars.contains c = true) ∨ st = ['A', '?'])
    (hnl : '\n' ∉ d) :
    matchResponse (STX :: ((Nat.repr a).data ++ (st ++ (d ++ [ETX]))))
      = some ((Nat.repr a).data, st, d) := by
  have hdig := repr_all_digits a
  have hne := repr_ne_nil a
  rcases hst with ⟨c, rfl, hc⟩ | rfl
  · have hcd : c.isDigit = false := statusChar_not_digit hc
    simp only [matchResponse, if_pos rfl, List.singleton_append]
    rw [takeWhile_append_of_all _ hdig, dropWhile_append_of_all _ hdig]
    simp only [List.takeWhile_cons, List.dropWhile_cons, hcd, Bool.false_eq_true,
      if_false, List.append_nil]
    simp only [List.isEmpty_iff, hne, if_false, dataETX_append d hnl]
    rw [if_pos hc]
    simp
  · have hAd : ('A' : Char).isDigit = false := by decide
    have hAc : statusChars.contains 'A' = false := by decide
    simp only [matchResponse, if_pos rfl, List.cons_append, List.nil_append]
    rw [takeWhile_append_of_all _ hdig, dropWhile_append_of_all _ hdig]
    simp only [List.takeWhile_cons, List.dropWhile_cons, hAd, Bool.false_eq_true,
      if_false, List.append_nil]
    simp only [List.isEmpty_iff, hne, if_false, if_true, hAc, Bool.false_eq_true,
      dataETX_append d hnl, Option.map_some']

lemma frameReply_data (a : Nat) (st d : String) :
    (frameReply a st d).data
      = STX :: ((Nat.repr a).data ++ (st.data ++ (d.data ++ [ETX]))) := by
  simp [frameReply]

/-- Decoding a framed reply with a normal status character and a payload
that does not begin with `?` yields the plain response. -/
lemma decode_frame_plain (a : Nat) (c : Char) (d : String)
    (hc : statusChars.contains c = true) (hnl : '\n' ∉ d.data)
    (hq : ∀ t, d.data ≠ '?' :: t) :
    decode (frameReply a (String.mk [c]) d) = .resp (Nat.repr a) (String.mk [c]) d := by
  unfold decode
  rw [frameReply_data, matchResponse_frame a [c] d.data (Or.inl ⟨c, rfl, hc⟩) hnl]
  simp only [List.cons.injEq, reduceCtorEq, and_false, if_false, hq]

/-- Decoding a framed reply whose status token is the fault marker `A?`
yields the hardware error carrying the payload, whatever the payload
(including payloads that begin with `?`). -/
lemma decode_frame_fault (a : Nat) (d : String) (hnl : '\n' ∉ d.data) :
    decode (frameReply a (String.mk ['A', '?']) d) = .hwErr d := by
  unfold decode
  rw [frameReply_data, matchResponse_frame a ['A', '?'] d.data (Or.inr rfl) hnl]
  simp

/-- Decoding a framed reply with a normal status character and a payload
beginning with `?` yields the communication error carrying the payload
without its leading `?`. -/
lemma decode_frame_comm (a : Nat) (c : Char) (d : String)
    (hc : statusChars.contains c = true) (hnl : '\n' ∉ d.data) :
    decode (frameReply a (String.mk [c]) ("?" ++ d)) = .commErr d := by
  unfold decode
  have hdq : ("?" ++ d).data = '?' :: d.data := by simp
  rw [frameReply_data, hdq,
    matchResponse_frame a [c] ('?' :: d.data) (Or.inl ⟨c, rfl, hc⟩) (by simpa using hnl)]
  simp only [List.cons.injEq, reduceCtorEq, and_false, if_false]

lemma head_ne_qmark {d : List Char} (h : d.head? ≠ some '?') : ∀ t, d ≠ '?' :: t := by
  intro t ht
  rw [ht] at h
  simp at h

/-! Claim theorems about the frame codec. -/

/-- C3 (amended: the payload must in addition contain no newline
character — the `.*` data group of `_response` cannot cross a newline,
so a payload holding one makes the match fail and the reply decode to
`CommunicationError("NR")` instead of a `Response`): for every
non-negative integer address, every status character in
`{I,W,S,P,T,U,X}`, and every payload string that does not begin with `?`
and contains no `ETX` byte and no newline, decoding the device-framed
reply `STX + address + status + payload + ETX` succeeds and returns a
`Response` whose address, status, and data fields equal the ones framed
in. -/
theorem C3_decode_roundtrip (a : Nat) (st : Char) (d : String)
    (hst : st ∈ statusChars) (hETX : ETX ∉ d.data)
    (hq : d.data.head? ≠ some '?') (hnl : '\n' ∉ d.data) :
    decode (frameReply a (String.mk [st]) d)
      = .resp (Nat.repr a) (String.mk [st]) d :=
  decode_frame_plain a st d (by simpa using hst) hnl (head_ne_qmark hq)

/-- C3 counterexample: the payload `"\n"` contains no `ETX` and does not
begin with `?`, yet decoding its framing yields
`CommunicationError("NR")` rather than a `Response`, refuting the claim
as stated. -/
theorem C3_newline_counterexample :
    ETX ∉ "\n".data ∧ "\n".data.head? ≠ some '?'
      ∧ decode (frameReply 0 (String.mk ['I']) "\n") = .commErr "NR" := by
  decide

/-- Witness for C3: decoding the framing of address 3, status `I`,
payload `"1.5"` returns that response. -/
theorem C3_witness :
    ('I' ∈ statusChars) ∧ ETX ∉ "1.5".data ∧ "1.5".data.head? ≠ some '?'
      ∧ '\n' ∉ "1.5".data
      ∧ decode (frameReply 3 (String.mk ['I']) "1.5")
          = .resp (Nat.repr 3) (String.mk ['I']) "1.5" :=
  ⟨by decide, by decide, by decide, by decide,
    C3_decode_roundtrip 3 'I' "1.5" (by decide) (by decide) (by decide) (by decide)⟩

/-- C4: decoding a well-formed reply whose status field is the fault
marker `A?` never returns a plain response — it yields a hardware error
carrying the reply's data field; in particular decoding
`"\x020A?S\x03"` yields `HardwareError("S")`. -/
theorem C4_fault_marker (a : Nat) (d : String)
    (hETX : ETX ∉ d.data) (hnl : '\n' ∉ d.data) :
    decode (frameReply a "A?" d) = .hwErr d
      ∧ decode "\x020A?S\x03" = .hwErr "S" :=
  ⟨decode_frame_fault a d hnl, by decide⟩

/-- Witness for C4 at address 0 with fault code `S`. -/
theorem C4_witness :
    ETX ∉ "S".data ∧ '\n' ∉ "S".data
      ∧ decode (frameReply 0 "A?" "S") = .hwErr "S"
      ∧ decode "\x020A?S\x03" = .hwErr "S" := by
  refine ⟨by decide, by decide, ?_, ?_⟩
  · exact (C4_fault_marker 0 "S" (by decide) (by decide)).1
  · exact (C4_fault_marker 0 "S" (by decide) (by decide)).2

/-- C5 counterexample: `"\x020A??X\x03"` is a well-formed reply line
(the pattern matches, with data field `"?X"` beginning with `?`), but
decoding yields `HardwareError("?X")` — the `A?` status check precedes
the `?`-prefix check in `_write_read` — not `CommunicationError("X")`,
refuting the claim as stated. -/
theorem C5_fault_precedence_counterexample :
    matchResponse ("\x020A??X\x03").data = some ("0".data, "A?".data, "?X".data)
      ∧ decode "\x020A??X\x03" = .hwErr "?X"
      ∧ decode "\x020A??X\x03" ≠ .commErr "X" := by
  decide

/-- C5 (amended: restricted to replies whose status field is one of the
seven normal status characters, since a reply with the `A?` fault marker
is surfaced as a hardware error even when its data begins with `?`):
decoding a well-formed reply line with a normal status whose data field
begins with `?` yields a communication error whose code is the data
field with the leading `?` removed; in particular decoding
`"\x020I?OOR\x03"` yields `CommunicationError("OOR")`. -/
theorem C5_comm_error (a : Nat) (st : Char) (d : String)
    (hst : st ∈ statusChars) (hETX : ETX ∉ d.data) (hnl : '\n' ∉ d.data) :
    decode (frameReply a (String.mk [st]) ("?" ++ d)) = .commErr d
      ∧ decode "\x020I?OOR\x03" = .commErr "OOR" :=
  ⟨decode_frame_comm a st d (by simpa using hst) hnl, by decide⟩

/-- Witness for C5 at address 0, status `I`, data `"?OOR"`. -/
theorem C5_witness :
    ('I' ∈ statusChars) ∧ ETX ∉ "OOR".data ∧ '\n' ∉ "OOR".data
      ∧ decode (frameReply 0 (String.mk ['I']) ("?" ++ "OOR")) = .commErr "OOR" := by
  refine ⟨by decide, by decide, by decide, ?_⟩
  exact (C5_comm_error 0 'I' "OOR" (by decide) (by decide) (by decide)).1

/-- C6: decoding the empty read yields `CommunicationError("NR")`, and
decoding any line on which the `_response` pattern fails also yields
`CommunicationError("NR")`. -/
theorem C6_no_response_nr :
    decode "" = .commErr "NR"
      ∧ ∀ line : String, matchResponse line.data = none →
          decode line = .commErr "NR" := by
  refine ⟨by decide, fun line h => ?_⟩
  unfold decode
  rw [h]

/-- Witness for C6: a line with no framing at all decodes to `NR`. -/
theorem C6_witness :
    matchResponse "garbage".data = none ∧ decode "garbage" = .commErr "NR" :=
  ⟨by decide, C6_no_response_nr.2 "garbage" (by decide)⟩

/-! Lemmas about the session operations. -/

lemma isPlainResp_iff (l : String) :
    isPlainResp l = true ↔ ∃ a s d, decode l = .resp a s d := by
  unfold isPlainResp
  cases h : decode l with
  | resp a s d => exact iff_of_true rfl ⟨a, s, d, rfl⟩
  | commErr c => simp
  | hwErr c => simp

lemma andThen_plain {α : Type} (cmd : String) (p : Pump)
    (k : Pump → Except PumpErr α × Pump)
    (h : isPlainResp (p.replies.headD "") = true) :
    andThen (writeRead cmd p) k = k (afterCmd cmd p) := by
  obtain ⟨a, s, d, hd⟩ := (isPlainResp_iff _).1 h
  rw [List.headD_eq_head?_getD] at hd
  simp [andThen, writeRead, hd, toResult]

lemma andThen_hw {α : Type} (cmd : String) (p : Pump)
    (k : Pump → Except PumpErr α × Pump) (code : String)
    (h : decode (p.replies.headD "") = .hwErr code) :
    andThen (writeRead cmd p) k = (.error (.hardware code), afterCmd cmd p) := by
  rw [List.headD_eq_head?_getD] at h
  simp [andThen, writeRead, h, toResult]

lemma andThen_comm {α : Type} (cmd : String) (p : Pump)
    (k : Pump → Except PumpErr α × Pump) (code : String)
    (h : decode (p.replies.headD "") = .commErr code) :
    andThen (writeRead cmd p) k = (.error (.comm code), afterCmd cmd p) := by
  rw [List.headD_eq_head?_getD] at h
  simp [andThen, writeRead, h, toResult]

lemma headD_drop {α : Type} (l : List α) (n : Nat) (d : α) :
    (l.drop n).headD d = l.getD n d := by
  induction n generalizing l with
  | zero => cases l <;> rfl
  | succ n ih =>
    cases l with
    | nil => rfl
    | cons a t => simpa using ih t

lemma afterCmd_replies (cmd : String) (p : Pump) :
    (afterCmd cmd p).replies = p.replies.tail := rfl

lemma afterCmd_sent (cmd : String) (p : Pump) :
    (afterCmd cmd p).sent = p.sent ++ [wire p.address cmd] := rfl

lemma getDispensed_of_disValues (p : Pump) (vi vw : ℚ)
    (h : disValues (p.replies.headD "") = some (vi, vw)) :
    getDispensed .infuse p = (.ok vi, afterCmd "DIS" p)
      ∧ getDispensed .withdraw p = (.ok vw, afterCmd "DIS" p) := by
  unfold disValues at h
  cases hdec : decode (p.replies.headD "") with
  | resp a s dd =>
    simp only [hdec] at h
    cases hdm : dispensedMatch dd.data with
    | none => simp only [hdm] at h; exact Option.noConfusion h
    | some triple =>
      obtain ⟨si, sw, u⟩ := triple
      simp only [hdm] at h
      cases hfi : pyFloatQ si with
      | none => simp only [hfi] at h; exact Option.noConfusion h
      | some qi =>
        cases hfw : pyFloatQ sw with
        | none => simp only [hfi, hfw] at h; exact Option.noConfusion h
        | some qw =>
          simp only [hfi, hfw, Option.some.injEq, Prod.mk.injEq] at h
          obtain ⟨rfl, rfl⟩ := h
          rw [List.headD_eq_head?_getD] at hdec
          constructor <;>
            simp [getDispensed, writeRead, toResult, hdec, hdm, hfi, hfw]
  | commErr c => simp only [hdec] at h; exact Option.noConfusion h
  | hwErr c => simp only [hdec] at h; exact Option.noConfusion h

lemma getInfused_val (p : Pump) (vi vw li : ℚ)
    (hd : disValues (p.replies.headD "") = some (vi, vw))
    (hli : p.lastInfused = some li) :
    getInfused p = (.ok (vi + li), afterCmd "DIS" p) := by
  have h := (getDispensed_of_disValues p vi vw hd).1
  unfold getInfused
  rw [h]
  have hlast : (afterCmd "DIS" p).lastInfused = some li := hli
  simp only [hlast]

lemma getWithdrawn_val (p : Pump) (vi vw lw : ℚ)
    (hd : disValues (p.replies.headD "") = some (vi, vw))
    (hlw : p.lastWithdrawn = some lw) :
    getWithdrawn p = (.ok (vw + lw), afterCmd "DIS" p) := by
  have h := (getDispensed_of_disValues p vi vw hd).2
  unfold getWithdrawn
  rw [h]
  have hlast : (afterCmd "DIS" p).lastWithdrawn = some lw := hlw
  simp only [hlast]

lemma afterCmd_lastInfused (cmd : String) (p : Pump) :
    (afterCmd cmd p).lastInfused = p.lastInfused := rfl

lemma afterCmd_lastWithdrawn (cmd : String) (p : Pump) :
    (afterCmd cmd p).lastWithdrawn = p.lastWithdrawn := rfl

lemma resetDispensed_eq (p : Pump)
    (h1 : isPlainResp (p.replies.headD "") = true)
    (h2 : isPlainResp (p.replies.tail.headD "") = true) :
    resetDispensed p
      = (.ok (), { p with
          lastInfused := some 0,
          lastWithdrawn := some 0,
          replies := p.replies.tail.tail,
          sent := p.sent ++ [wire p.address "CLD INF", wire p.address "CLD WDR"] }) := by
  unfold resetDispensed
  rw [andThen_plain "CLD INF" ({ p with lastInfused := some 0, lastWithdrawn := some 0 } : Pump)
    _ (by exact h1)]
  rw [andThen_plain "CLD WDR"
    (afterCmd "CLD INF" ({ p with lastInfused := some 0, lastWithdrawn := some 0 } : Pump))
    _ (by exact h2)]
  simp [afterCmd, List.append_assoc]

lemma setDiameter_eq (p : Pump) (x : String) (li lw vi vw : ℚ)
    (hli : p.lastInfused = some li) (hlw : p.lastWithdrawn = some lw)
    (h1 : disValues (p.replies.headD "") = some (vi, vw))
    (h2 : disValues (p.replies.tail.headD "") = some (vi, vw))
    (hack : isPlainResp (p.replies.tail.tail.headD "") = true) :
    setDiameter x p
      = (.ok (), { p with
          lastInfused := some (li + vi),
          lastWithdrawn := some (lw + vw),
          replies := p.replies.tail.tail.tail,
          sent := p.sent ++ [wire p.address "DIS", wire p.address "DIS",
            wire p.address ("DIA " ++ x)] }) := by
  have g1 := (getDispensed_of_disValues p vi vw h1).1
  unfold setDiameter
  simp only [hli, g1, afterCmd, List.tail_cons, List.append_assoc, List.singleton_append, hlw]
  have g2 := (getDispensed_of_disValues
    ({ address := p.address, diameter := p.diameter, rate := p.rate, rateUnits := p.rateUnits,
       volume := p.volume, volumeUnit := p.volumeUnit, lastInfused := some (li + vi),
       lastWithdrawn := some lw, replies := p.replies.tail,
       sent := p.sent ++ [wire p.address "DIS"] } : Pump) vi vw (by exact h2)).2
  simp only [g2, afterCmd, List.tail_cons, List.append_assoc, List.singleton_append]
  rw [andThen_plain ("DIA " ++ x)
    ({ address := p.address, diameter := p.diameter, rate := p.rate, rateUnits := p.rateUnits,
       volume := p.volume, volumeUnit := p.volumeUnit, lastInfused := some (li + vi),
       lastWithdrawn := some (lw + vw), replies := p.replies.tail.tail,
       sent := p.sent ++ [wire p.address "DIS", wire p.address "DIS"] } : Pump)
    _ (by exact hack)]
  simp [afterCmd, List.append_assoc]


lemma getDispensed_snd (direction : Direction) (p : Pump) :
    (getDispensed direction p).2 = afterCmd "DIS" p := by
  unfold getDispensed writeRead
  cases hdec : decode (p.replies.headD "") with
  | resp a s dd =>
    simp only [hdec, toResult]
    cases hdm : dispensedMatch dd.data with
    | none => simp [hdm]
    | some triple =>
      obtain ⟨si, sw, u⟩ := triple
      simp only [hdm]
      cases hf : pyFloatQ (match direction with | .infuse => si | .withdraw => sw) with
      | none => simp [hf]
      | some q => simp [hf]
  | commErr c => simp [hdec, toResult]
  | hwErr c => simp [hdec, toResult]

lemma getInfused_snd (p : Pump) : (getInfused p).2 = afterCmd "DIS" p := by
  unfold getInfused
  cases hg : getDispensed .infuse p with
  | mk fst snd =>
    have hsnd : snd = afterCmd "DIS" p := by
      have h := getDispensed_snd .infuse p
      rw [hg] at h
      exact h
    cases fst with
    | error e => simpa using hsnd
    | ok v =>
      cases hli : snd.lastInfused <;> simpa [hli] using hsnd

lemma getWithdrawn_snd (p : Pump) : (getWithdrawn p).2 = afterCmd "DIS" p := by
  unfold getWithdrawn
  cases hg : getDispensed .withdraw p with
  | mk fst snd =>
    have hsnd : snd = afterCmd "DIS" p := by
      have h := getDispensed_snd .withdraw p
      rw [hg] at h
      exact h
    cases fst with
    | error e => simpa using hsnd
    | ok v =>
      cases hlw : snd.lastWithdrawn <;> simpa [hlw] using hsnd


/-- C8: a plain read leaves every session field unchanged: `getInfused`
and `getWithdrawn` mutate neither the carryover fields nor any of the
stored configuration; only the transport (one reply consumed, one `DIS`
command written) moves. -/
theorem C8_reads_frame (p : Pump) :
    ((getInfused p).2.lastInfused = p.lastInfused
      ∧ (getInfused p).2.lastWithdrawn = p.lastWithdrawn
      ∧ (getInfused p).2.address = p.address
      ∧ (getInfused p).2.diameter = p.diameter
      ∧ (getInfused p).2.rate = p.rate
      ∧ (getInfused p).2.rateUnits = p.rateUnits
      ∧ (getInfused p).2.volume = p.volume
      ∧ (getInfused p).2.volumeUnit = p.volumeUnit)
    ∧ ((getWithdrawn p).2.lastInfused = p.lastInfused
      ∧ (getWithdrawn p).2.lastWithdrawn = p.lastWithdrawn
      ∧ (getWithdrawn p).2.address = p.address
      ∧ (getWithdrawn p).2.diameter = p.diameter
      ∧ (getWithdrawn p).2.rate = p.rate
      ∧ (getWithdrawn p).2.rateUnits = p.rateUnits
      ∧ (getWithdrawn p).2.volume = p.volume
      ∧ (getWithdrawn p).2.volumeUnit = p.volumeUnit) := by
  rw [getInfused_snd, getWithdrawn_snd]
  exact ⟨⟨rfl, rfl, rfl, rfl, rfl, rfl, rfl, rfl⟩, rfl, rfl, rfl, rfl, rfl, rfl, rfl, rfl⟩

/-- C9: `getVolume` never reaches the `VOL` round trip: its first
statement evaluates the undefined global name `SIM` and raises
`NameError`, for every session state, instead of returning the reply
payload that the spec promises. -/
theorem C9_getVolume_raises (p : Pump) :
    getVolume p = (.error (.nameError "SIM"), p) := rfl

/-- C7: when `resetDispensed` succeeds it has zeroed both carryover
fields and issued exactly the two counter-clear commands `CLD INF` and
`CLD WDR`; an immediately following `getInfused` or `getWithdrawn`
against cleared device counters (a `DIS` reply reporting zero for both
directions) returns 0. -/
theorem C7_resetDispensed_zeroes (p p2 : Pump) (h : resetDispensed p = (.ok (), p2))
    (z : String) (rest : List String) (hz : disValues z = some (0, 0)) :
    p2.lastInfused = some 0 ∧ p2.lastWithdrawn = some 0
      ∧ p2.sent = p.sent ++ [wire p.address "CLD INF", wire p.address "CLD WDR"]
      ∧ (getInfused { p2 with replies := z :: rest }).1 = .ok 0
      ∧ (getWithdrawn { p2 with replies := z :: rest }).1 = .ok 0 := by
  unfold resetDispensed andThen writeRead toResult at h
  split at h
  · simp at h
  · rename_i a1 q1 heq1
    beta_reduce at h
    split at h
    · simp at h
    · rename_i a2 q2 heq2
      beta_reduce at h
      simp only [Prod.mk.injEq] at h heq1 heq2
      obtain ⟨-, hq1⟩ := heq1
      obtain ⟨-, hq2⟩ := heq2
      obtain ⟨-, hp2⟩ := h
      subst hq1
      subst hq2
      subst hp2
      refine ⟨rfl, rfl, by simp [afterCmd, List.append_assoc], ?_, ?_⟩
      · rw [getInfused_val _ 0 0 0 (by exact hz) rfl]
        norm_num
      · rw [getWithdrawn_val _ 0 0 0 (by exact hz) rfl]
        norm_num


/-- C1: with both carryover fields defined, `setDiameter` first issues
the two `DIS` queries, folds the live values into the carryover, and
only then sends `DIA`; consequently the value `getInfused` returns right
after the diameter change (the device counter now reading zero) equals
the value it returned right before, and likewise for `getWithdrawn`. -/
theorem C1_setDiameter_carryover (p pB : Pump) (x : String) (li lw vi vw : ℚ)
    (d z ack : String) (rest rest2 : List String)
    (hli : p.lastInfused = some li) (hlw : p.lastWithdrawn = some lw)
    (hd : disValues d = some (vi, vw)) (hz : disValues z = some (0, 0))
    (hack : isPlainResp ack = true)
    (hpB : pB = { p with replies := d :: d :: ack :: z :: rest2 }) :
    (setDiameter x pB).1 = .ok ()
      ∧ (setDiameter x pB).2.lastInfused = some (li + vi)
      ∧ (setDiameter x pB).2.lastWithdrawn = some (lw + vw)
      ∧ (setDiameter x pB).2.sent
          = p.sent ++ [wire p.address "DIS", wire p.address "DIS",
              wire p.address ("DIA " ++ x)]
      ∧ (getInfused (setDiameter x pB).2).1
          = (getInfused { p with replies := d :: rest }).1
      ∧ (getWithdrawn (setDiameter x pB).2).1
          = (getWithdrawn { p with replies := d :: rest }).1 := by
  subst hpB
  rw [setDiameter_eq ({ p with replies := d :: d :: ack :: z :: rest2 } : Pump) x li lw vi vw
    (by exact hli) (by exact hlw) (by exact hd) (by exact hd) (by exact hack)]
  refine ⟨rfl, rfl, rfl, rfl, ?_, ?_⟩
  · rw [getInfused_val _ 0 0 (li + vi) (by exact hz) rfl,
      getInfused_val _ vi vw li (by exact hd) (by exact hli)]
    norm_num [add_comm]
  · rw [getWithdrawn_val _ 0 0 (lw + vw) (by exact hz) rfl,
      getWithdrawn_val _ vi vw lw (by exact hd) (by exact hlw)]
    norm_num [add_comm]



lemma dropWhile_eq_nil_of_all {p : Char → Bool} :
    ∀ {l : List Char}, l.all p = true → l.dropWhile p = [] := by
  intro l
  induction l with
  | nil => intro _; rfl
  | cons c t ih =>
    intro h
    simp only [List.all_cons, Bool.and_eq_true] at h
    simp [List.dropWhile_cons, h.1, ih h.2]

/-- On a nonempty all-digit numeral (no dot), Python float() returns its
integer value. -/
lemma pyFloatQ_int (l : List Char) (hl : l.all Char.isDigit = true) (hne : l ≠ []) :
    pyFloatQ l = some (digitsToNat l : ℚ) := by
  have hnd : ∀ c : Char, c.isDigit = true → (c != '.') = true := by
    intro c hc
    rw [bne_iff_ne]
    rintro rfl
    exact absurd hc (by decide)
  have hdd : l.all dotDigit = true := by
    rw [List.all_eq_true] at hl ⊢
    intro c hc
    simp [dotDigit, hl c hc]
  have hdot : l.all (fun c => c != '.') = true := by
    rw [List.all_eq_true] at hl ⊢
    intro c hc
    exact hnd c (hl c hc)
  have hcount : l.count '.' = 0 := by
    rw [List.count_eq_zero]
    intro hmem
    have := (List.all_eq_true.1 hl) '.' hmem
    exact absurd this (by decide)
  have hany : l.any Char.isDigit = true := by
    cases l with
    | nil => exact absurd rfl hne
    | cons c t =>
      have hc : c.isDigit = true := by
        have := (List.all_eq_true.1 hl) c (by simp)
        exact this
      simp [List.any_cons, hc]
  unfold pyFloatQ
  rw [takeWhile_eq_self_of_all hdot, dropWhile_eq_nil_of_all hdot]
  rw [if_pos (by simp [hdd, hcount, hany])]
  norm_num [digitsToNat]

/-- Evaluation form of `disValues` for replies whose two numerals are
plain integers. -/
lemma disValues_eval (s : String) (a st dd : String) (si sw u : List Char)
    (h1 : decode s = .resp a st dd)
    (h2 : dispensedMatch dd.data = some (si, sw, u))
    (h3 : si.all Char.isDigit = true) (h4 : si ≠ [])
    (h5 : sw.all Char.isDigit = true) (h6 : sw ≠ []) :
    disValues s = some ((digitsToNat si : ℚ), (digitsToNat sw : ℚ)) := by
  unfold disValues
  rw [h1]
  simp only [h2, pyFloatQ_int si h3 h4, pyFloatQ_int sw h5 h6]

/-- A concrete session used by the witnesses: address 0, default
configuration, nonzero carryover, two plain replies queued. -/
def samplePump : Pump :=
  { address := 0, diameter := "14.3", rate := "10", rateUnits := "UM",
    volume := "100", volumeUnit := "UL", lastInfused := some 5,
    lastWithdrawn := some 7,
    replies := ["\x020S\x03", "\x020S\x03"], sent := [] }

/-- Witness for C1 at a concrete session: live totals (2, 3), carryover
(5, 7); the totals read after the diameter change equal the ones read
before. -/
theorem C1_witness :
    samplePump.lastInfused = some 5 ∧ samplePump.lastWithdrawn = some 7
      ∧ disValues "\x020SI2W3UL\x03" = some (2, 3)
      ∧ disValues "\x020SI0W0UL\x03" = some (0, 0)
      ∧ isPlainResp "\x020S14.0\x03" = true
      ∧ (getInfused (setDiameter "20.0" { samplePump with
            replies := ["\x020SI2W3UL\x03", "\x020SI2W3UL\x03", "\x020S14.0\x03",
              "\x020SI0W0UL\x03"] }).2).1
          = (getInfused { samplePump with replies := ["\x020SI2W3UL\x03"] }).1
      ∧ (getWithdrawn (setDiameter "20.0" { samplePump with
            replies := ["\x020SI2W3UL\x03", "\x020SI2W3UL\x03", "\x020S14.0\x03",
              "\x020SI0W0UL\x03"] }).2).1
          = (getWithdrawn { samplePump with replies := ["\x020SI2W3UL\x03"] }).1 := by
  have hd : disValues "\x020SI2W3UL\x03" = some (2, 3) := by
    have h := disValues_eval "\x020SI2W3UL\x03" "0" "S" "I2W3UL" ['2'] ['3'] ['U', 'L']
      (by decide) (by decide) (by decide) (by decide) (by decide) (by decide)
    norm_num [show digitsToNat ['2'] = 2 from rfl, show digitsToNat ['3'] = 3 from rfl] at h
    exact h
  have hz : disValues "\x020SI0W0UL\x03" = some (0, 0) := by
    have h := disValues_eval "\x020SI0W0UL\x03" "0" "S" "I0W0UL" ['0'] ['0'] ['U', 'L']
      (by decide) (by decide) (by decide) (by decide) (by decide) (by decide)
    norm_num [show digitsToNat ['0'] = 0 from rfl] at h
    exact h
  have h := C1_setDiameter_carryover samplePump
    ({ samplePump with replies := ["\x020SI2W3UL\x03", "\x020SI2W3UL\x03", "\x020S14.0\x03",
        "\x020SI0W0UL\x03"] }) "20.0" 5 7 2 3
    "\x020SI2W3UL\x03" "\x020SI0W0UL\x03" "\x020S14.0\x03" [] []
    rfl rfl hd hz (by decide) rfl
  exact ⟨rfl, rfl, hd, hz, by decide, h.2.2.2.2.1, h.2.2.2.2.2⟩

/-- Witness for C7 at a concrete session. -/
theorem C7_witness :
    disValues "\x020SI0W0UL\x03" = some (0, 0)
      ∧ (getInfused { (resetDispensed samplePump).2 with
            replies := ["\x020SI0W0UL\x03"] }).1 = .ok 0
      ∧ (getWithdrawn { (resetDispensed samplePump).2 with
            replies := ["\x020SI0W0UL\x03"] }).1 = .ok 0 := by
  have hz : disValues "\x020SI0W0UL\x03" = some (0, 0) := by
    have h := disValues_eval "\x020SI0W0UL\x03" "0" "S" "I0W0UL" ['0'] ['0'] ['U', 'L']
      (by decide) (by decide) (by decide) (by decide) (by decide) (by decide)
    norm_num [show digitsToNat ['0'] = 0 from rfl] at h
    exact h
  have h := C7_resetDispensed_zeroes samplePump (resetDispensed samplePump).2 rfl
    "\x020SI0W0UL\x03" [] hz
  exact ⟨hz, h.2.2.2.1, h.2.2.2.2⟩

lemma tails_drop1 {α : Type} (l : List α) : l.tail = l.drop 1 := (List.drop_one l).symm

lemma tails_drop2 {α : Type} (l : List α) : l.tail.tail = l.drop 2 := by
  rw [tails_drop1 l, List.tail_drop]

lemma tails_drop3 {α : Type} (l : List α) : l.tail.tail.tail = l.drop 3 := by
  rw [tails_drop2 l, List.tail_drop]

lemma tails_drop4 {α : Type} (l : List α) : l.tail.tail.tail.tail = l.drop 4 := by
  rw [tails_drop3 l, List.tail_drop]

lemma tails_drop5 {α : Type} (l : List α) : l.tail.tail.tail.tail.tail = l.drop 5 := by
  rw [tails_drop4 l, List.tail_drop]

lemma tails_drop6 {α : Type} (l : List α) : l.tail.tail.tail.tail.tail.tail = l.drop 6 := by
  rw [tails_drop5 l, List.tail_drop]

lemma tails_drop7 {α : Type} (l : List α) : l.tail.tail.tail.tail.tail.tail.tail = l.drop 7 := by
  rw [tails_drop6 l, List.tail_drop]

lemma headD_getD0 {α : Type} (l : List α) (d : α) : l.headD d = l.getD 0 d := by
  cases l <;> rfl

lemma headD_getD1 {α : Type} (l : List α) (d : α) : (l.tail).headD d = l.getD 1 d := by
  rw [tails_drop1 l, headD_drop]

lemma headD_getD2 {α : Type} (l : List α) (d : α) : (l.tail.tail).headD d = l.getD 2 d := by
  rw [tails_drop2 l, headD_drop]

lemma headD_getD3 {α : Type} (l : List α) (d : α) : (l.tail.tail.tail).headD d = l.getD 3 d := by
  rw [tails_drop3 l, headD_drop]

lemma headD_getD4 {α : Type} (l : List α) (d : α) : (l.tail.tail.tail.tail).headD d = l.getD 4 d := by
  rw [tails_drop4 l, headD_drop]

lemma headD_getD5 {α : Type} (l : List α) (d : α) : (l.tail.tail.tail.tail.tail).headD d = l.getD 5 d := by
  rw [tails_drop5 l, headD_drop]

lemma headD_getD6 {α : Type} (l : List α) (d : α) : (l.tail.tail.tail.tail.tail.tail).headD d = l.getD 6 d := by
  rw [tails_drop6 l, headD_drop]

lemma headD_getD7 {α : Type} (l : List α) (d : α) : (l.tail.tail.tail.tail.tail.tail.tail).headD d = l.getD 7 d := by
  rw [tails_drop7 l, headD_drop]

lemma andThen_toResult_err {α : Type} (cmd : String) (p : Pump)
    (k : Pump → Except PumpErr α × Pump) (e : PumpErr)
    (h : toResult (decode (p.replies.headD "")) = .error e) :
    andThen (writeRead cmd p) k = (.error e, afterCmd cmd p) := by
  rw [List.headD_eq_head?_getD] at h
  simp [andThen, writeRead, h]

/-- When seven consecutive replies decode to plain responses, the
constructor body runs to completion: carryover zeroed, seven replies
consumed, and exactly the five setup wires followed by the two
counter-clear wires written, in order. -/
lemma initBody_ok (p : Pump)
    (h0 : isPlainResp ((p.replies).headD "") = true)
    (h1 : isPlainResp ((p.replies.tail).headD "") = true)
    (h2 : isPlainResp ((p.replies.tail.tail).headD "") = true)
    (h3 : isPlainResp ((p.replies.tail.tail.tail).headD "") = true)
    (h4 : isPlainResp ((p.replies.tail.tail.tail.tail).headD "") = true)
    (h5 : isPlainResp ((p.replies.tail.tail.tail.tail.tail).headD "") = true)
    (h6 : isPlainResp ((p.replies.tail.tail.tail.tail.tail.tail).headD "") = true) :
    initBody p = (.ok (), { p with
      lastInfused := some 0, lastWithdrawn := some 0,
      replies := p.replies.tail.tail.tail.tail.tail.tail.tail,
      sent := p.sent ++ [wire p.address "AL 0", wire p.address ("DIA " ++ p.diameter),
        wire p.address ("VOL " ++ p.volume), wire p.address ("VOL " ++ p.volumeUnit),
        wire p.address ("RAT " ++ p.rate ++ " " ++ p.rateUnits),
        wire p.address "CLD INF", wire p.address "CLD WDR"] }) := by
  unfold initBody
  rw [andThen_plain "AL 0" p _ (show isPlainResp ((p.replies).headD "") = true from h0)]
  beta_reduce
  rw [andThen_plain ("DIA " ++ (afterCmd "AL 0" p).diameter) (afterCmd "AL 0" p) _ (show isPlainResp ((p.replies.tail).headD "") = true from h1)]
  beta_reduce
  rw [andThen_plain ("VOL " ++ (afterCmd ("DIA " ++ (afterCmd "AL 0" p).diameter) (afterCmd "AL 0" p)).volume) (afterCmd ("DIA " ++ (afterCmd "AL 0" p).diameter) (afterCmd "AL 0" p)) _ (show isPlainResp ((p.replies.tail.tail).headD "") = true from h2)]
  beta_reduce
  rw [andThen_plain ("VOL " ++ (afterCmd ("VOL " ++ (afterCmd ("DIA " ++ (afterCmd "AL 0" p).diameter) (afterCmd "AL 0" p)).volume) (afterCmd ("DIA " ++ (afterCmd "AL 0" p).diameter) (afterCmd "AL 0" p))).volumeUnit) (afterCmd ("VOL " ++ (afterCmd ("DIA " ++ (afterCmd "AL 0" p).diameter) (afterCmd "AL 0" p)).volume) (afterCmd ("DIA " ++ (afterCmd "AL 0" p).diameter) (afterCmd "AL 0" p))) _ (show isPlainResp ((p.replies.tail.tail.tail).headD "") = true from h3)]
  beta_reduce
  rw [andThen_plain ("RAT " ++ (afterCmd ("VOL " ++ (afterCmd ("VOL " ++ (afterCmd ("DIA " ++ (afterCmd "AL 0" p).diameter) (afterCmd "AL 0" p)).volume) (afterCmd ("DIA " ++ (afterCmd "AL 0" p).diameter) (afterCmd "AL 0" p))).volumeUnit) (afterCmd ("VOL " ++ (afterCmd ("DIA " ++ (afterCmd "AL 0" p).diameter) (afterCmd "AL 0" p)).volume) (afterCmd ("DIA " ++ (afterCmd "AL 0" p).diameter) (afterCmd "AL 0" p)))).rate ++ " " ++ (afterCmd ("VOL " ++ (afterCmd ("VOL " ++ (afterCmd ("DIA " ++ (afterCmd "AL 0" p).diameter) (afterCmd "AL 0" p)).volume) (afterCmd ("DIA " ++ (afterCmd "AL 0" p).diameter) (afterCmd "AL 0" p))).volumeUnit) (afterCmd ("VOL " ++ (afterCmd ("DIA " ++ (afterCmd "AL 0" p).diameter) (afterCmd "AL 0" p)).volume) (afterCmd ("DIA " ++ (afterCmd "AL 0" p).diameter) (afterCmd "AL 0" p)))).rateUnits) (afterCmd ("VOL " ++ (afterCmd ("VOL " ++ (afterCmd ("DIA " ++ (afterCmd "AL 0" p).diameter) (afterCmd "AL 0" p)).volume) (afterCmd ("DIA " ++ (afterCmd "AL 0" p).diameter) (afterCmd "AL 0" p))).volumeUnit) (afterCmd ("VOL " ++ (afterCmd ("DIA " ++ (afterCmd "AL 0" p).diameter) (afterCmd "AL 0" p)).volume) (afterCmd ("DIA " ++ (afterCmd "AL 0" p).diameter) (afterCmd "AL 0" p)))) _ (show isPlainResp ((p.replies.tail.tail.tail.tail).headD "") = true from h4)]
  beta_reduce
  rw [resetDispensed_eq ({ (afterCmd ("RAT " ++ (afterCmd ("VOL " ++ (afterCmd ("VOL " ++ (afterCmd ("DIA " ++ (afterCmd "AL 0" p).diameter) (afterCmd "AL 0" p)).volume) (afterCmd ("DIA " ++ (afterCmd "AL 0" p).diameter) (afterCmd "AL 0" p))).volumeUnit) (afterCmd ("VOL " ++ (afterCmd ("DIA " ++ (afterCmd "AL 0" p).diameter) (afterCmd "AL 0" p)).volume) (afterCmd ("DIA " ++ (afterCmd "AL 0" p).diameter) (afterCmd "AL 0" p)))).rate ++ " " ++ (afterCmd ("VOL " ++ (afterCmd ("VOL " ++ (afterCmd ("DIA " ++ (afterCmd "AL 0" p).diameter) (afterCmd "AL 0" p)).volume) (afterCmd ("DIA " ++ (afterCmd "AL 0" p).diameter) (afterCmd "AL 0" p))).volumeUnit) (afterCmd ("VOL " ++ (afterCmd ("DIA " ++ (afterCmd "AL 0" p).diameter) (afterCmd "AL 0" p)).volume) (afterCmd ("DIA " ++ (afterCmd "AL 0" p).diameter) (afterCmd "AL 0" p)))).rateUnits) (afterCmd ("VOL " ++ (afterCmd ("VOL " ++ (afterCmd ("DIA " ++ (afterCmd "AL 0" p).diameter) (afterCmd "AL 0" p)).volume) (afterCmd ("DIA " ++ (afterCmd "AL 0" p).diameter) (afterCmd "AL 0" p))).volumeUnit) (afterCmd ("VOL " ++ (afterCmd ("DIA " ++ (afterCmd "AL 0" p).diameter) (afterCmd "AL 0" p)).volume) (afterCmd ("DIA " ++ (afterCmd "AL 0" p).diameter) (afterCmd "AL 0" p))))) with lastInfused := some 0, lastWithdrawn := some 0 } : Pump)
    (show isPlainResp ((p.replies.tail.tail.tail.tail.tail).headD "") = true from h5)
    (show isPlainResp ((p.replies.tail.tail.tail.tail.tail.tail).headD "") = true from h6)]
  simp [afterCmd, List.append_assoc]

set_option maxRecDepth 8192 in
/-- When the first `i` replies decode to plain responses and reply `i`
(one of the five setup commands, `i < 5`) decodes to an error, the
constructor body stops there: the error propagates out of the `try`
block with the session still carrying its unassigned carryover fields,
having written exactly the first `i + 1` setup wires. -/
lemma initBody_err_at (c : PumpConfig) (rs : List String) (i : Nat) (hi : i < 5)
    (hprev : ∀ j, j < i → isPlainResp (rs.getD j "") = true)
    (e : PumpErr) (he : toResult (decode (rs.getD i "")) = .error e) :
    initBody (Pump.fromConfig c rs)
      = (.error e, { Pump.fromConfig c rs with
          replies := rs.drop (i + 1), sent := (setupCmds c).take (i + 1) }) := by
  interval_cases i
  · unfold initBody
    rw [andThen_toResult_err "AL 0" (Pump.fromConfig c rs) _ e
      (show toResult (decode ((rs).headD "")) = .error e by rw [headD_getD0]; exact he)]
    simp only [afterCmd, Pump.fromConfig, setupCmds,
      List.take_succ_cons, List.take_zero, List.tail_cons, List.append_assoc,
      List.nil_append, List.singleton_append, List.cons_append]
    rw [tails_drop1 rs]
  · unfold initBody
    rw [andThen_plain "AL 0" (Pump.fromConfig c rs) _
      (show isPlainResp ((rs).headD "") = true by rw [headD_getD0]; exact hprev 0 (by omega))]
    beta_reduce
    rw [andThen_toResult_err ("DIA " ++ (afterCmd "AL 0" (Pump.fromConfig c rs)).diameter) (afterCmd "AL 0" (Pump.fromConfig c rs)) _ e
      (show toResult (decode ((rs.tail).headD "")) = .error e by rw [headD_getD1]; exact he)]
    simp only [afterCmd, Pump.fromConfig, setupCmds,
      List.take_succ_cons, List.take_zero, List.tail_cons, List.append_assoc,
      List.nil_append, List.singleton_append, List.cons_append]
    rw [tails_drop2 rs]
  · unfold initBody
    rw [andThen_plain "AL 0" (Pump.fromConfig c rs) _
      (show isPlainResp ((rs).headD "") = true by rw [headD_getD0]; exact hprev 0 (by omega))]
    beta_reduce
    rw [andThen_plain ("DIA " ++ (afterCmd "AL 0" (Pump.fromConfig c rs)).diameter) (afterCmd "AL 0" (Pump.fromConfig c rs)) _
      (show isPlainResp ((rs.tail).headD "") = true by rw [headD_getD1]; exact hprev 1 (by omega))]
    beta_reduce
    rw [andThen_toResult_err ("VOL " ++ (afterCmd ("DIA " ++ (afterCmd "AL 0" (Pump.fromConfig c rs)).diameter) (afterCmd "AL 0" (Pump.fromConfig c rs))).volume) (afterCmd ("DIA " ++ (afterCmd "AL 0" (Pump.fromConfig c rs)).diameter) (afterCmd "AL 0" (Pump.fromConfig c rs))) _ e
      (show toResult (decode ((rs.tail.tail).headD "")) = .error e by rw [headD_getD2]; exact he)]
    simp only [afterCmd, Pump.fromConfig, setupCmds,
      List.take_succ_cons, List.take_zero, List.tail_cons, List.append_assoc,
      List.nil_append, List.singleton_append, List.cons_append]
    rw [tails_drop3 rs]
  · unfold initBody
    rw [andThen_plain "AL 0" (Pump.fromConfig c rs) _
      (show isPlainResp ((rs).headD "") = true by rw [headD_getD0]; exact hprev 0 (by omega))]
    beta_reduce
    rw [andThen_plain ("DIA " ++ (afterCmd "AL 0" (Pump.fromConfig c rs)).diameter) (afterCmd "AL 0" (Pump.fromConfig c rs)) _
      (show isPlainResp ((rs.tail).headD "") = true by rw [headD_getD1]; exact hprev 1 (by omega))]
    beta_reduce
    rw [andThen_plain ("VOL " ++ (afterCmd ("DIA " ++ (afterCmd "AL 0" (Pump.fromConfig c rs)).diameter) (afterCmd "AL 0" (Pump.fromConfig c rs))).volume) (afterCmd ("DIA " ++ (afterCmd "AL 0" (Pump.fromConfig c rs)).diameter) (afterCmd "AL 0" (Pump.fromConfig c rs))) _
      (show isPlainResp ((rs.tail.tail).headD "") = true by rw [headD_getD2]; exact hprev 2 (by omega))]
    beta_reduce
    rw [andThen_toResult_err ("VOL " ++ (afterCmd ("VOL " ++ (afterCmd ("DIA " ++ (afterCmd "AL 0" (Pump.fromConfig c rs)).diameter) (afterCmd "AL 0" (Pump.fromConfig c rs))).volume) (afterCmd ("DIA " ++ (afterCmd "AL 0" (Pump.fromConfig c rs)).diameter) (afterCmd "AL 0" (Pump.fromConfig c rs)))).volumeUnit) (afterCmd ("VOL " ++ (afterCmd ("DIA " ++ (afterCmd "AL 0" (Pump.fromConfig c rs)).diameter) (afterCmd "AL 0" (Pump.fromConfig c rs))).volume) (afterCmd ("DIA " ++ (afterCmd "AL 0" (Pump.fromConfig c rs)).diameter) (afterCmd "AL 0" (Pump.fromConfig c rs)))) _ e
      (show toResult (decode ((rs.tail.tail.tail).headD "")) = .error e by rw [headD_getD3]; exact he)]
    simp only [afterCmd, Pump.fromConfig, setupCmds,
      List.take_succ_cons, List.take_zero, List.tail_cons, List.append_assoc,
      List.nil_append, List.singleton_append, List.cons_append]
    rw [tails_drop4 rs]
  · unfold initBody
    rw [andThen_plain "AL 0" (Pump.fromConfig c rs) _
      (show isPlainResp ((rs).headD "") = true by rw [headD_getD0]; exact hprev 0 (by omega))]
    beta_reduce
    rw [andThen_plain ("DIA " ++ (afterCmd "AL 0" (Pump.fromConfig c rs)).diameter) (afterCmd "AL 0" (Pump.fromConfig c rs)) _
      (show isPlainResp ((rs.tail).headD "") = true by rw [headD_getD1]; exact hprev 1 (by omega))]
    beta_reduce
    rw [andThen_plain ("VOL " ++ (afterCmd ("DIA " ++ (afterCmd "AL 0" (Pump.fromConfig c rs)).diameter) (afterCmd "AL 0" (Pump.fromConfig c rs))).volume) (afterCmd ("DIA " ++ (afterCmd "AL 0" (Pump.fromConfig c rs)).diameter) (afterCmd "AL 0" (Pump.fromConfig c rs))) _
      (show isPlainResp ((rs.tail.tail).headD "") = true by rw [headD_getD2]; exact hprev 2 (by omega))]
    beta_reduce
    rw [andThen_plain ("VOL " ++ (afterCmd ("VOL " ++ (afterCmd ("DIA " ++ (afterCmd "AL 0" (Pump.fromConfig c rs)).diameter) (afterCmd "AL 0" (Pump.fromConfig c rs))).volume) (afterCmd ("DIA " ++ (afterCmd "AL 0" (Pump.fromConfig c rs)).diameter) (afterCmd "AL 0" (Pump.fromConfig c rs)))).volumeUnit) (afterCmd ("VOL " ++ (afterCmd ("DIA " ++ (afterCmd "AL 0" (Pump.fromConfig c rs)).diameter) (afterCmd "AL 0" (Pump.fromConfig c rs))).volume) (afterCmd ("DIA " ++ (afterCmd "AL 0" (Pump.fromConfig c rs)).diameter) (afterCmd "AL 0" (Pump.fromConfig c rs)))) _
      (show isPlainResp ((rs.tail.tail.tail).headD "") = true by rw [headD_getD3]; exact hprev 3 (by omega))]
    beta_reduce
    rw [andThen_toResult_err ("RAT " ++ (afterCmd ("VOL " ++ (afterCmd ("VOL " ++ (afterCmd ("DIA " ++ (afterCmd "AL 0" (Pump.fromConfig c rs)).diameter) (afterCmd "AL 0" (Pump.fromConfig c rs))).volume) (afterCmd ("DIA " ++ (afterCmd "AL 0" (Pump.fromConfig c rs)).diameter) (afterCmd "AL 0" (Pump.fromConfig c rs)))).volumeUnit) (afterCmd ("VOL " ++ (afterCmd ("DIA " ++ (afterCmd "AL 0" (Pump.fromConfig c rs)).diameter) (afterCmd "AL 0" (Pump.fromConfig c rs))).volume) (afterCmd ("DIA " ++ (afterCmd "AL 0" (Pump.fromConfig c rs)).diameter) (afterCmd "AL 0" (Pump.fromConfig c rs))))).rate ++ " " ++ (afterCmd ("VOL " ++ (afterCmd ("VOL " ++ (afterCmd ("DIA " ++ (afterCmd "AL 0" (Pump.fromConfig c rs)).diameter) (afterCmd "AL 0" (Pump.fromConfig c rs))).volume) (afterCmd ("DIA " ++ (afterCmd "AL 0" (Pump.fromConfig c rs)).diameter) (afterCmd "AL 0" (Pump.fromConfig c rs)))).volumeUnit) (afterCmd ("VOL " ++ (afterCmd ("DIA " ++ (afterCmd "AL 0" (Pump.fromConfig c rs)).diameter) (afterCmd "AL 0" (Pump.fromConfig c rs))).volume) (afterCmd ("DIA " ++ (afterCmd "AL 0" (Pump.fromConfig c rs)).diameter) (afterCmd "AL 0" (Pump.fromConfig c rs))))).rateUnits) (afterCmd ("VOL " ++ (afterCmd ("VOL " ++ (afterCmd ("DIA " ++ (afterCmd "AL 0" (Pump.fromConfig c rs)).diameter) (afterCmd "AL 0" (Pump.fromConfig c rs))).volume) (afterCmd ("DIA " ++ (afterCmd "AL 0" (Pump.fromConfig c rs)).diameter) (afterCmd "AL 0" (Pump.fromConfig c rs)))).volumeUnit) (afterCmd ("VOL " ++ (afterCmd ("DIA " ++ (afterCmd "AL 0" (Pump.fromConfig c rs)).diameter) (afterCmd "AL 0" (Pump.fromConfig c rs))).volume) (afterCmd ("DIA " ++ (afterCmd "AL 0" (Pump.fromConfig c rs)).diameter) (afterCmd "AL 0" (Pump.fromConfig c rs))))) _ e
      (show toResult (decode ((rs.tail.tail.tail.tail).headD "")) = .error e by rw [headD_getD4]; exact he)]
    simp only [afterCmd, Pump.fromConfig, setupCmds,
      List.take_succ_cons, List.take_zero, List.tail_cons, List.append_assoc,
      List.nil_append, List.singleton_append, List.cons_append]
    rw [tails_drop5 rs]


lemma wire_cmd_inj {a : Nat} {c1 c2 : String} (h : wire a c1 = wire a c2) :
    c1 = c2 := by
  unfold wire at h
  have hd := congrArg String.data h
  simp only [String.data_append, List.append_assoc] at hd
  have hd2 := List.append_cancel_left hd
  have hd3 := List.append_cancel_left hd2
  have hd4 := List.append_cancel_right hd3
  cases c1
  cases c2
  exact congrArg String.mk hd4

lemma ne_of_data_head {s t : String} {a b : Char} {l m : List Char}
    (hs : s.data = a :: l) (ht : t.data = b :: m) (hab : a ≠ b) : s ≠ t := by
  intro h
  rw [h, ht] at hs
  injection hs with h1 _
  exact hab h1.symm

lemma cldInf_not_in_setupCmds (c : PumpConfig) :
    wire c.address "CLD INF" ∉ setupCmds c := by
  unfold setupCmds
  simp only [List.mem_cons, List.not_mem_nil, or_false]
  rintro (h | h | h | h | h) <;>
    exact absurd (wire_cmd_inj h) (ne_of_data_head rfl rfl (by decide))

lemma cldWdr_not_in_setupCmds (c : PumpConfig) :
    wire c.address "CLD WDR" ∉ setupCmds c := by
  unfold setupCmds
  simp only [List.mem_cons, List.not_mem_nil, or_false]
  rintro (h | h | h | h | h) <;>
    exact absurd (wire_cmd_inj h) (ne_of_data_head rfl rfl (by decide))

/-- C2: a fully successful construction sends the five setup commands
alarm, diameter, volume, volume-unit, rate — in that order, as the first
five wires (followed only by the two counter clears); and for every
device behaviour at any of the five setup commands, a hardware-error
reply with code `R` leaves construction returning normally, while a
hardware-error reply with any other code, or any communication error,
propagates and aborts construction. -/
theorem C2_init_sequence (c : PumpConfig) (rs : List String) :
    ((∀ j, j < 7 → isPlainResp (rs.getD j "") = true) →
        ∃ p, Pump.init c rs = .ok p ∧ p.sent = initWires c)
      ∧ (∀ i, i < 5 → (∀ j, j < i → isPlainResp (rs.getD j "") = true) →
          (∀ code, decode (rs.getD i "") = .hwErr code →
              (code = "R" → ∃ p, Pump.init c rs = .ok p)
                ∧ (code ≠ "R" → Pump.init c rs = .error (.hardware code)))
            ∧ (∀ code, decode (rs.getD i "") = .commErr code →
                Pump.init c rs = .error (.comm code))) := by
  constructor
  · intro h7
    have hbody := initBody_ok (Pump.fromConfig c rs)
      (show isPlainResp ((rs).headD "") = true by
        rw [headD_getD0]; exact h7 0 (by omega))
      (show isPlainResp ((rs.tail).headD "") = true by
        rw [headD_getD1]; exact h7 1 (by omega))
      (show isPlainResp ((rs.tail.tail).headD "") = true by
        rw [headD_getD2]; exact h7 2 (by omega))
      (show isPlainResp ((rs.tail.tail.tail).headD "") = true by
        rw [headD_getD3]; exact h7 3 (by omega))
      (show isPlainResp ((rs.tail.tail.tail.tail).headD "") = true by
        rw [headD_getD4]; exact h7 4 (by omega))
      (show isPlainResp ((rs.tail.tail.tail.tail.tail).headD "") = true by
        rw [headD_getD5]; exact h7 5 (by omega))
      (show isPlainResp ((rs.tail.tail.tail.tail.tail.tail).headD "") = true by
        rw [headD_getD6]; exact h7 6 (by omega))
    unfold Pump.init
    rw [hbody]
    exact ⟨_, rfl, by simp [Pump.fromConfig, initWires, setupCmds]⟩
  · intro i hi hprev
    constructor
    · intro code hcode
      have herr := initBody_err_at c rs i hi hprev (.hardware code)
        (by rw [hcode]; rfl)
      constructor
      · rintro rfl
        have hinit : Pump.init c rs = .ok ({ Pump.fromConfig c rs with
            replies := rs.drop (i + 1), sent := (setupCmds c).take (i + 1) } : Pump) := by
          unfold Pump.init
          rw [herr]
          simp
        exact ⟨_, hinit⟩
      · intro hne
        unfold Pump.init
        rw [herr]
        simp [hne]
    · intro code hcode
      have herr := initBody_err_at c rs i hi hprev (.comm code)
        (by rw [hcode]; rfl)
      unfold Pump.init
      rw [herr]

/-- Witness for C2: with the default configuration and seven plain
status replies, construction succeeds and the wire trace is exactly the
five setup commands followed by the two counter clears. -/
theorem C2_witness :
    ∃ p, Pump.init {} (List.replicate 7 "\x020S\x03") = .ok p
      ∧ p.sent = initWires {} :=
  (C2_init_sequence {} (List.replicate 7 "\x020S\x03")).1 (by decide)

/-- C10: when one of the five setup commands is answered with the
tolerated hardware fault code `R`, the constructor returns normally but
the carryover fields were never assigned and the counter-clear commands
were never sent; the first subsequent `getInfused` or `getWithdrawn`
(even against a well-formed `DIS` reply) fails with an attribute error
instead of returning a number. -/
theorem C10_swallowed_reset (c : PumpConfig) (rs : List String)
    (i : Nat) (hi : i < 5)
    (hprev : ∀ j, j < i → isPlainResp (rs.getD j "") = true)
    (hR : decode (rs.getD i "") = .hwErr "R")
    (d : String) (vi vw : ℚ) (hd : disValues d = some (vi, vw)) (rest : List String) :
    ∃ p, Pump.init c rs = .ok p
      ∧ p.lastInfused = none ∧ p.lastWithdrawn = none
      ∧ p.sent = (setupCmds c).take (i + 1)
      ∧ wire c.address "CLD INF" ∉ p.sent
      ∧ wire c.address "CLD WDR" ∉ p.sent
      ∧ (getInfused { p with replies := d :: rest }).1
          = .error (.attrError "_lastInfused")
      ∧ (getWithdrawn { p with replies := d :: rest }).1
          = .error (.attrError "_lastWithdrawn") := by
  have herr := initBody_err_at c rs i hi hprev (.hardware "R") (by rw [hR]; rfl)
  have hinit : Pump.init c rs = .ok ({ Pump.fromConfig c rs with
      replies := rs.drop (i + 1), sent := (setupCmds c).take (i + 1) } : Pump) := by
    unfold Pump.init
    rw [herr]
    simp
  refine ⟨_, hinit, rfl, rfl, rfl, ?_, ?_, ?_, ?_⟩
  · intro hmem
    exact cldInf_not_in_setupCmds c (List.mem_of_mem_take hmem)
  · intro hmem
    exact cldWdr_not_in_setupCmds c (List.mem_of_mem_take hmem)
  · have g := (getDispensed_of_disValues
      ({ ({ Pump.fromConfig c rs with
            replies := rs.drop (i + 1), sent := (setupCmds c).take (i + 1) } : Pump) with
          replies := d :: rest } : Pump) vi vw (by exact hd)).1
    unfold getInfused
    rw [g]
    rfl
  · have g := (getDispensed_of_disValues
      ({ ({ Pump.fromConfig c rs with
            replies := rs.drop (i + 1), sent := (setupCmds c).take (i + 1) } : Pump) with
          replies := d :: rest } : Pump) vi vw (by exact hd)).2
    unfold getWithdrawn
    rw [g]
    rfl
/-- Witness for C10 at the default configuration: the very first setup
command is answered with the tolerated `R` fault; construction returns
normally, yet the first read fails with an attribute error. -/
theorem C10_witness :
    decode ((["\x020A?R\x03"] : List String).getD 0 "") = .hwErr "R"
      ∧ ∃ p, Pump.init {} ["\x020A?R\x03"] = .ok p
          ∧ p.lastInfused = none ∧ p.lastWithdrawn = none
          ∧ (getInfused { p with replies := ["\x020SI2W3UL\x03"] }).1
              = .error (.attrError "_lastInfused") := by
  have hd : disValues "\x020SI2W3UL\x03" = some (2, 3) := by
    have h := disValues_eval "\x020SI2W3UL\x03" "0" "S" "I2W3UL" ['2'] ['3'] ['U', 'L']
      (by decide) (by decide) (by decide) (by decide) (by decide) (by decide)
    norm_num [show digitsToNat ['2'] = 2 from rfl, show digitsToNat ['3'] = 3 from rfl] at h
    exact h
  have h := C10_swallowed_reset {} ["\x020A?R\x03"] 0 (by omega)
    (fun j hj => absurd hj (by omega)) (by decide) "\x020SI2W3UL\x03" 2 3 hd []
  obtain ⟨p, h1, h2, h3, h4, h5, h6, h7, h8⟩ := h
  exact ⟨by decide, p, h1, h2, h3, h7⟩

end Myser
